import Mathlib

/-!
Shallow embedding of the RunSafe gateway PII detection engine
(docker/gateway/pii-detector.js) and proofs about its specification.

Modelling conventions:
* JS strings are Lean strings (lists of characters); the inputs exercised
  here are ASCII, where JS `toLowerCase` and the `/[A-Za-z0-9]/` character
  class coincide with the explicit character arithmetic used below.
* The JS numeric confidence constants (0.8, 0.95, 0.9, 0.85, 0.75, 0.99)
  are exact two-decimal values, embedded as exact rationals via `mkRat`
  (for example 0.8 is `mkRat 4 5`).
* The host regex engine behind `text.match(pattern)` is not part of the
  repository; a compiled pattern is therefore modelled by its match
  function `String → List String`, returning the list of matched
  substrings of a call with the global flag (a `null` result is `[]`).
* JS truthiness is modelled explicitly where the source relies on it:
  `x || d` on numbers treats 0/null/absent as falsy, on strings treats
  ""/absent as falsy.
* `JSON.parse(JSON.stringify(data))` on plain JSON data is the identity
  on the `JValue` model, so the deep clone in `sanitizeData` is implicit.
-/

/-- Character test for the JS regex character class `[A-Za-z0-9]`
used by `redactText`'s preserve-format replacement. -/
def jsAlnum (c : Char) : Bool :=
  (65 ≤ c.toNat && c.toNat ≤ 90) || (97 ≤ c.toNat && c.toNat ≤ 122) ||
    (48 ≤ c.toNat && c.toNat ≤ 57)

/-- ASCII lower-casing of one character, as JS `toLowerCase` acts on the
ASCII inputs used in this development. -/
def lowerChar (c : Char) : Char :=
  if 65 ≤ c.toNat ∧ c.toNat ≤ 90 then Char.ofNat (c.toNat + 32) else c

/-- Lower-casing of a string (JS `text.toLowerCase()` on ASCII input). -/
def lowerString (s : String) : String :=
  String.mk (s.data.map lowerChar)

/-- Substring test on character lists: true when `sub` occurs
contiguously inside `s` (JS `s.includes(sub)`). -/
def containsSub (s sub : List Char) : Bool :=
  match s with
  | [] => sub.isPrefixOf []
  | c :: t => sub.isPrefixOf (c :: t) || containsSub t sub

/-- Substring test on strings (JS `s.includes(sub)`). -/
def containsStr (s sub : String) : Bool :=
  containsSub s.data sub.data

/-- Helper for `strIndexOf`: index of the first occurrence of `sub`
starting from position `i`, or -1. -/
def indexOfAux (sub : List Char) : List Char → Nat → Int
  | [], i => if sub.isPrefixOf ([] : List Char) then (i : Int) else -1
  | c :: t, i => if sub.isPrefixOf (c :: t) then (i : Int) else indexOfAux sub t (i + 1)

/-- Index of the first occurrence of `sub` in `s`, or -1
(JS `s.indexOf(sub)`). -/
def strIndexOf (s sub : String) : Int :=
  indexOfAux sub.data s.data 0

/-- String repetition (JS `r.repeat(n)`). -/
def repeatString (r : String) (n : Nat) : String :=
  String.mk ((List.replicate n r.data).flatten)

/-- Comma-and-space join (JS `array.join(', ')`). -/
def joinComma : List String → String
  | [] => ""
  | [s] => s
  | s :: rest => s ++ ", " ++ joinComma rest

/-- JS `v || dflt` for an optional string: absent and "" are falsy. -/
def jsOrString (v : Option String) (dflt : String) : String :=
  match v with
  | none => dflt
  | some s => if s = "" then dflt else s

/-- JS `v || dflt` for a present string: "" is falsy. -/
def jsOrStringD (v dflt : String) : String :=
  if v = "" then dflt else v

/-- Configuration of one detection pattern, as declared in the policy's
`pii_detection.patterns` map (pii-detector.js, compilePatterns). -/
structure PatternConfig where
  regex : String
  description : String
  category : String
  gdpr_article : String
  risk_level : String
  case_sensitive : Bool
  examples : Option (List String)
deriving DecidableEq

/-- One entry of the compiled pattern map `this.patterns`.  The compiled
`RegExp` is modelled by `matchFn`, the behaviour of the host regex engine
for `text.match(pattern)` with the global flag: the list of matched
substrings, a `null` result being `[]`. -/
structure CompiledPattern where
  name : String
  config : PatternConfig
  matchFn : String → List String

/-- Redaction settings (`pii_detection.redaction`). -/
structure RedactionConfig where
  replacement_char : String
  preserve_format : Bool
  min_length : Nat
deriving DecidableEq

/-- Per-risk action map (`gdpr.actions`); absent entries are `none`,
which also models `this.policy?.gdpr?.actions || {}`. -/
structure GdprActions where
  on_high : Option String
  on_medium : Option String
  on_low : Option String
deriving DecidableEq

/-- The `gdpr` section of the policy. -/
structure GdprConfig where
  mode : Option String
  actions : GdprActions
deriving DecidableEq

/-- The loaded policy, restricted to the fields the engine reads.
`confidence_threshold := none` models an absent or null entry and
`whitelistPhrases := []` models `pii_detection?.whitelist?.phrases || []`. -/
structure PiiPolicy where
  enabled : Bool
  confidence_threshold : Option ℚ
  whitelistPhrases : List String
  redaction : Option RedactionConfig
  gdpr : GdprConfig

/-- The detector state after `loadPolicy`: the parsed policy and the
compiled pattern map (a JS `Map`, iterated in insertion order). -/
structure PIIDetector where
  policy : PiiPolicy
  patterns : List CompiledPattern

/-- Whether detection is enabled (pii-detector.js, isEnabled). -/
def isEnabled (d : PIIDetector) : Bool :=
  d.policy.enabled

/-- The threshold actually used by scanText and getStats:
`this.policy.pii_detection?.confidence_threshold || 0.8`.  A configured
value of 0 is falsy in JS, so it falls back to 0.8 exactly like an
absent or null value. -/
def effectiveThreshold (t : Option ℚ) : ℚ :=
  match t with
  | none => mkRat 4 5
  | some x => if x = 0 then mkRat 4 5 else x

/-- JS `config.examples && config.examples.includes(match)`: an absent
examples list is falsy, a present list is searched for the exact match. -/
def exampleHit (examples : Option (List String)) (m : String) : Bool :=
  match examples with
  | none => false
  | some l => l.contains m

/-- Confidence scoring (pii-detector.js, calculateConfidence): base 0.8,
category adjustments, the exact-example override to 0.99, and the final
clamp at 1.0. -/
def calculateConfidence (m : String) (config : PatternConfig) : ℚ :=
  let confidence : ℚ := mkRat 4 5
  let confidence : ℚ :=
    if config.category = "financial" then
      if 15 ≤ m.length then mkRat 19 20
      else if 10 ≤ m.length then mkRat 9 10
      else confidence
    else if config.category = "identifier" then mkRat 17 20
    else if config.category = "contact" then mkRat 3 4
    else if config.category = "special_category" then mkRat 9 10
    else confidence
  let confidence : ℚ :=
    if exampleHit config.examples m then mkRat 99 100 else confidence
  min confidence 1

/-- The built-in fallback of `this.policy.pii_detection?.redaction`. -/
def defaultRedaction : RedactionConfig :=
  { replacement_char := "*", preserve_format := true, min_length := 3 }

/-- The redaction configuration `redactText` resolves on each call. -/
def effectiveRedaction (d : PIIDetector) : RedactionConfig :=
  d.policy.redaction.getD defaultRedaction

/-- JS `text.replace(/[A-Za-z0-9]/g, repl)`: every alphanumeric
character is replaced by the replacement string, all other characters
pass through unchanged. -/
def replaceAlnum (repl : String) (s : String) : String :=
  String.mk ((s.data.map (fun c => if jsAlnum c then repl.data else [c])).flatten)

/-- Redaction of one detected substring (pii-detector.js, redactText).
The JS function also receives the pattern config but never reads it. -/
def redactText (d : PIIDetector) (text : String) : String :=
  let rc := effectiveRedaction d
  if rc.preserve_format then
    replaceAlnum rc.replacement_char text
  else
    repeatString rc.replacement_char (max text.length rc.min_length)

/-- One detected violation (pii-detector.js, scanText). -/
structure Violation where
  type : String
  category : String
  description : String
  gdpr_article : String
  risk_level : String
  detected_text : String
  redacted_text : String
  confidence_score : ℚ
  field_path : Option String
  data_source : String
  position : Int
deriving DecidableEq

/-- The violation record scanText builds for one match of one pattern. -/
def mkViolation (d : PIIDetector) (text source name : String)
    (config : PatternConfig) (m : String) : Violation :=
  { type := name
    category := config.category
    description := config.description
    gdpr_article := config.gdpr_article
    risk_level := config.risk_level
    detected_text := m
    redacted_text := redactText d m
    confidence_score := calculateConfidence m config
    field_path := none
    data_source := source
    position := strIndexOf text m }

/-- Text scanning (pii-detector.js, scanText): disabled engine or empty
text yields no violations; a whitelisted text is skipped entirely; then
every match of every compiled pattern becomes a violation, kept only if
its confidence score reaches the effective threshold. -/
def scanText (d : PIIDetector) (text source : String) : List Violation :=
  if ¬ isEnabled d ∨ text = "" then []
  else if d.policy.whitelistPhrases.any
      (fun phrase => containsStr (lowerString text) (lowerString phrase)) then []
  else
    let threshold := effectiveThreshold d.policy.confidence_threshold
    (d.patterns.map (fun p =>
      ((p.matchFn text).map (fun m => mkViolation d text source p.name p.config m)).filter
        (fun v => threshold ≤ v.confidence_score))).flatten

/-- Detection statistics (pii-detector.js, getStats).  In this embedding
a detector always holds a loaded policy, so `policy_loaded` is true. -/
structure DetectorStats where
  enabled : Bool
  patterns_loaded : Nat
  confidence_threshold : ℚ
  policy_loaded : Bool
  categories : List String

/-- Statistics reported by the engine (pii-detector.js, getStats). -/
def getStats (d : PIIDetector) : DetectorStats :=
  { enabled := isEnabled d
    patterns_loaded := d.patterns.length
    confidence_threshold := effectiveThreshold d.policy.confidence_threshold
    policy_loaded := true
    categories := (d.patterns.map (fun p => p.config.category)).eraseDups }

/-- Enforcement mode (pii-detector.js, getEnforcementMode):
`this.policy?.gdpr?.mode || 'monitor'`. -/
def getEnforcementMode (d : PIIDetector) : String :=
  jsOrString d.policy.gdpr.mode "monitor"

mutual
/-- Plain deserialized JSON value, the shape of the request/response
data the enforcement engine walks. -/
inductive JValue where
  | str (s : String) : JValue
  | num (n : ℚ) : JValue
  | boolVal (b : Bool) : JValue
  | null : JValue
  | arr (items : JArray) : JValue
  | obj (fields : JObject) : JValue

/-- Array of JSON values. -/
inductive JArray where
  | nil : JArray
  | cons (hd : JValue) (tl : JArray) : JArray

/-- Object fields: ordered key/value pairs. -/
inductive JObject where
  | nil : JObject
  | cons (key : String) (val : JValue) (tl : JObject) : JObject
end

/-- Helper for `strReplaceAll`: replaces every non-overlapping occurrence
of `t` by `r`, left to right.  The fuel argument is initialised to the
length of the scanned list; every step consumes at least one character,
so the fuel never runs out on the initial call. -/
def strReplaceAllAux (t r : List Char) : Nat → List Char → List Char
  | 0, s => s
  | _ + 1, [] => []
  | fuel + 1, c :: rest =>
    if t ≠ [] ∧ t.isPrefixOf (c :: rest) then
      r ++ strReplaceAllAux t r fuel (rest.drop (t.length - 1))
    else
      c :: strReplaceAllAux t r fuel rest

/-- JS `s.replace(new RegExp(escapeRegex(t), 'g'), r)` for non-empty `t`:
after regex escaping this is a literal global substring replacement
(`sanitizeData` only calls it with a non-empty search text). -/
def strReplaceAll (s t r : String) : String :=
  String.mk (strReplaceAllAux t.data r.data s.data.length s.data)

mutual
/-- Text replacement in a nested structure (pii-detector.js,
replaceInObject): strings get the global literal replacement, arrays and
objects are rebuilt recursively, other scalars pass through. -/
def replaceInObject : JValue → String → String → JValue
  | .str s, searchText, replaceText => .str (strReplaceAll s searchText replaceText)
  | .arr items, searchText, replaceText => .arr (replaceInArray items searchText replaceText)
  | .obj fields, searchText, replaceText => .obj (replaceInFields fields searchText replaceText)
  | v, _, _ => v

/-- Recursion of `replaceInObject` over array elements. -/
def replaceInArray : JArray → String → String → JArray
  | .nil, _, _ => .nil
  | .cons hd tl, searchText, replaceText =>
    .cons (replaceInObject hd searchText replaceText) (replaceInArray tl searchText replaceText)

/-- Recursion of `replaceInObject` over object fields. -/
def replaceInFields : JObject → String → String → JObject
  | .nil, _, _ => .nil
  | .cons k v tl, searchText, replaceText =>
    .cons k (replaceInObject v searchText replaceText) (replaceInFields tl searchText replaceText)
end

/-- JS truthiness of the nullable `violation.field_path`: null and ""
are falsy. -/
def truthyOptStr (v : Option String) : Bool :=
  match v with
  | none => false
  | some s => !(s == "")

/-- Sanitization (pii-detector.js, sanitizeData): non-object data is
returned unchanged; otherwise each violation with a truthy field path
and detected text performs a global replacement of its detected text by
its redacted text (falling back to a fresh redaction when the stored
redacted text is falsy) over a deep clone of the data. -/
def sanitizeData (d : PIIDetector) (data : JValue) (violations : List Violation) : JValue :=
  match data with
  | .arr a =>
    violations.foldl (fun acc v =>
      if truthyOptStr v.field_path && !(v.detected_text == "") then
        replaceInObject acc v.detected_text
          (jsOrStringD v.redacted_text (redactText d v.detected_text))
      else acc) (.arr a)
  | .obj o =>
    violations.foldl (fun acc v =>
      if truthyOptStr v.field_path && !(v.detected_text == "") then
        replaceInObject acc v.detected_text
          (jsOrStringD v.redacted_text (redactText d v.detected_text))
      else acc) (.obj o)
  | other => other

/-- Result of one enforcement decision (pii-detector.js, applyEnforcement). -/
structure EnforcementResult where
  action : String
  modified : Bool
  sanitizedData : JValue
  blockReason : Option String
  warnings : List String
  appliedActions : List String

/-- Per-risk action application (pii-detector.js, applyActionForRisk):
switch on the action string; unknown actions only append a default tag. -/
def applyActionForRisk (d : PIIDetector) (riskLevel action : String) (data : JValue)
    (violations : List Violation) (result : EnforcementResult) : EnforcementResult :=
  if action = "block" then
    { result with
      action := "block"
      blockReason := some ("Blocked due to " ++ riskLevel ++ " risk PII: " ++
        joinComma (violations.map (fun v => v.type)))
      appliedActions := result.appliedActions ++ ["blocked_" ++ riskLevel ++ "_risk"] }
  else if action = "redact" ∨ action = "sanitize" then
    { result with
      sanitizedData := sanitizeData d data violations
      modified := true
      appliedActions := result.appliedActions ++ ["sanitized_" ++ riskLevel ++ "_risk"] }
  else if action = "warn" then
    { result with
      warnings := result.warnings ++ ["Warning: " ++ riskLevel ++ " risk PII detected: " ++
        joinComma (violations.map (fun v => v.type))]
      appliedActions := result.appliedActions ++ ["warned_" ++ riskLevel ++ "_risk"] }
  else if action = "allow_with_note" then
    { result with
      warnings := result.warnings ++ ["Note: " ++ riskLevel ++ " risk PII detected but allowed: " ++
        joinComma (violations.map (fun v => v.type))]
      appliedActions := result.appliedActions ++ ["noted_" ++ riskLevel ++ "_risk"] }
  else
    { result with
      appliedActions := result.appliedActions ++ ["default_action_" ++ riskLevel ++ "_risk"] }

/-- Enforcement decision (pii-detector.js, applyEnforcement): the four
recognized modes are checked in order (monitor, then block / sanitize /
warn each gated on a non-empty violation list), any other situation with
violations falls back to the per-risk action map, high risk first, with
medium and low buckets skipped once the result is a block. -/
def applyEnforcement (d : PIIDetector) (data : JValue)
    (violations : List Violation) : EnforcementResult :=
  let mode := getEnforcementMode d
  let highRiskViolations := violations.filter (fun v => v.risk_level = "high")
  let mediumRiskViolations := violations.filter (fun v => v.risk_level = "medium")
  let lowRiskViolations := violations.filter (fun v => v.risk_level = "low")
  let result : EnforcementResult :=
    { action := "allow", modified := false, sanitizedData := data,
      blockReason := none, warnings := [], appliedActions := [] }
  if mode = "monitor" then
    { result with
      action := "allow"
      appliedActions := result.appliedActions ++ ["logged_for_monitoring"] }
  else if mode = "block" ∧ violations ≠ [] then
    { result with
      action := "block"
      blockReason := some ("Blocked by " ++ mode ++ " mode - PII detected: " ++
        joinComma (violations.map (fun v => v.type ++ " (" ++ v.risk_level ++ ")")))
      appliedActions := result.appliedActions ++ ["blocked_by_" ++ mode ++ "_mode"] }
  else if mode = "sanitize" ∧ violations ≠ [] then
    { result with
      sanitizedData := sanitizeData d data violations
      modified := true
      action := "allow"
      appliedActions := result.appliedActions ++ ["sanitized_by_" ++ mode ++ "_mode"] }
  else if mode = "warn" ∧ violations ≠ [] then
    { result with
      warnings := result.warnings ++ ["Warning by " ++ mode ++ " mode - PII detected: " ++
        joinComma (violations.map (fun v => v.type ++ " (" ++ v.risk_level ++ ")"))]
      appliedActions := result.appliedActions ++ ["warned_by_" ++ mode ++ "_mode"] }
  else if violations ≠ [] then
    let r1 :=
      if highRiskViolations ≠ [] then
        applyActionForRisk d "high" (jsOrString d.policy.gdpr.actions.on_high "block")
          data highRiskViolations result
      else result
    let r2 :=
      if mediumRiskViolations ≠ [] ∧ r1.action ≠ "block" then
        applyActionForRisk d "medium" (jsOrString d.policy.gdpr.actions.on_medium "redact")
          data mediumRiskViolations r1
      else r1
    let r3 :=
      if lowRiskViolations ≠ [] ∧ r2.action ≠ "block" then
        applyActionForRisk d "low" (jsOrString d.policy.gdpr.actions.on_low "allow_with_note")
          data lowRiskViolations r2
      else r2
    r3
  else
    result

/-! Concrete fixtures: the default policy of loadDefaultPolicy (a single
email pattern), detectors differing only in configured threshold or
enforcement mode, and sample violations. -/

/-- The email pattern configuration of loadDefaultPolicy. -/
def emailConfig : PatternConfig :=
  { regex := "\\b[A-Za-z0-9._%+-]+@[A-Za-z0-9.-]+\\.[A-Z|a-z]\x7b2,\x7d\\b"
    description := "Email Address"
    category := "contact"
    gdpr_article := "Article 6"
    risk_level := "low"
    case_sensitive := true
    examples := none }

/-- Behaviour of the host regex engine for the default email pattern on
the inputs exercised in this development: on "guest@hotel.com" the
global match finds exactly that one substring. -/
def emailMatchFn (text : String) : List String :=
  if text = "guest@hotel.com" then ["guest@hotel.com"] else []

/-- The compiled default email pattern. -/
def emailPattern : CompiledPattern :=
  { name := "email", config := emailConfig, matchFn := emailMatchFn }

/-- A gdpr section with no mode and no per-risk actions configured. -/
def emptyGdpr : GdprConfig :=
  { mode := none, actions := { on_high := none, on_medium := none, on_low := none } }

/-- The default policy with the email pattern, parametrised by the
configured confidence threshold. -/
def emailDetector (t : Option ℚ) : PIIDetector :=
  { policy :=
      { enabled := true
        confidence_threshold := t
        whitelistPhrases := []
        redaction := none
        gdpr := emptyGdpr }
    patterns := [emailPattern] }

/-- The detector state produced by loadDefaultPolicy: threshold 0.8 and
the single email pattern. -/
def defaultPolicyDetector : PIIDetector :=
  emailDetector (some (mkRat 4 5))

/-- A pattern-free detector with the given gdpr mode, for enforcement
claims (scanning plays no role there). -/
def modeDetector (mode : Option String) : PIIDetector :=
  { policy :=
      { enabled := true
        confidence_threshold := some (mkRat 4 5)
        whitelistPhrases := []
        redaction := none
        gdpr := { mode := mode, actions := { on_high := none, on_medium := none, on_low := none } } }
    patterns := [] }

/-- The violation scanText produces for "guest@hotel.com" under the
default email pattern when the threshold admits it. -/
def guestEmailViolation : Violation :=
  { type := "email"
    category := "contact"
    description := "Email Address"
    gdpr_article := "Article 6"
    risk_level := "low"
    detected_text := "guest@hotel.com"
    redacted_text := "*****@*****.***"
    confidence_score := mkRat 3 4
    field_path := none
    data_source := "request_body"
    position := 0 }

/-- A low-risk violation whose redacted text equals its detected text
(a match without alphanumeric characters redacts to itself). -/
def bangViolation : Violation :=
  { type := "punct_marks"
    category := "other"
    description := "Punctuation run"
    gdpr_article := "Article 6"
    risk_level := "low"
    detected_text := "!!"
    redacted_text := "!!"
    confidence_score := mkRat 4 5
    field_path := some "m"
    data_source := "request_body"
    position := 4 }

/-- The data object containing the text the bang violation points at. -/
def bangData : JValue :=
  .obj (.cons "m" (.str "say !! now") .nil)

/-- A high-risk sample violation. -/
def cardViolation : Violation :=
  { type := "credit_card"
    category := "financial"
    description := "Credit Card Number"
    gdpr_article := "Article 6"
    risk_level := "high"
    detected_text := "4532015112830366"
    redacted_text := "****************"
    confidence_score := mkRat 19 20
    field_path := some "message"
    data_source := "request_body"
    position := 12 }

/-- Invariant of enforcement results relative to an original violation
list: a block decision carries a reason, and a modification means the
sanitized data is the global-substitution sanitization of some sub-list
of the violations. -/
def EnfInv (d : PIIDetector) (data : JValue) (V : List Violation)
    (r : EnforcementResult) : Prop :=
  (r.action = "block" → r.blockReason ≠ none) ∧
  (r.modified = true → ∃ S : List Violation, (∀ v ∈ S, v ∈ V) ∧
    r.sanitizedData = sanitizeData d data S)

/-- The pattern configuration used for the concrete IBAN confidence
evaluation (category financial, high risk). -/
def ibanConfig : PatternConfig :=
  { regex := "\\b[A-Z]\x7b2\x7d\\d\x7b2\x7d[A-Z0-9]\x7b11,30\x7d\\b"
    description := "IBAN"
    category := "financial"
    gdpr_article := "Article 6"
    risk_level := "high"
    case_sensitive := true
    examples := none }

/-- Passport pattern configuration for the whitelist-precedence witness. -/
def passportConfig : PatternConfig :=
  { regex := "\\b[A-Z]\\d\x7b7\x7d\\b"
    description := "EU Passport Number"
    category := "identifier"
    gdpr_article := "Article 6"
    risk_level := "medium"
    case_sensitive := true
    examples := none }

/-- Behaviour of the host regex engine for the passport pattern on the
inputs exercised here: any text containing "A1234567" yields that match. -/
def passportMatchFn (text : String) : List String :=
  if containsStr text "A1234567" then ["A1234567"] else []

/-- A detector with a whitelist phrase and a passport pattern that would
match the whitelisted text, for the whitelist-precedence witness. -/
def whitelistDetector : PIIDetector :=
  { policy :=
      { enabled := true
        confidence_threshold := some (mkRat 4 5)
        whitelistPhrases := ["example"]
        redaction := none
        gdpr := emptyGdpr }
    patterns := [⟨"eu_passport", passportConfig, passportMatchFn⟩] }

theorem isPrefixOf_append_self (l t : List Char) : l.isPrefixOf (l ++ t) = true := by
  induction l with
  | nil => cases t <;> rfl
  | cons c cs ih => simp [List.isPrefixOf, ih]

theorem containsSub_append_left (a s sub : List Char) (h : containsSub s sub = true) :
    containsSub (a ++ s) sub = true := by
  induction a with
  | nil => simpa using h
  | cons c cs ih => simp [containsSub, ih]

theorem containsSub_self_append (sub post : List Char) :
    containsSub (sub ++ post) sub = true := by
  cases sub with
  | nil => cases post <;> simp [containsSub, List.isPrefixOf]
  | cons c cs => simp [containsSub, isPrefixOf_append_self]

theorem stringAppend_data (a b : String) : (a ++ b).data = a.data ++ b.data := rfl

theorem containsStr_append_left (a s sub : String) (h : containsStr s sub = true) :
    containsStr (a ++ s) sub = true := by
  unfold containsStr at h ⊢
  rw [stringAppend_data]
  exact containsSub_append_left a.data s.data sub.data h

theorem containsStr_self_append (sub post : String) :
    containsStr (sub ++ post) sub = true := by
  unfold containsStr
  rw [stringAppend_data]
  exact containsSub_self_append sub.data post.data

theorem containsStr_self (s : String) : containsStr s s = true := by
  unfold containsStr
  have h := containsSub_self_append s.data []
  simpa using h

theorem stringAppend_assoc (a b c : String) : (a ++ b) ++ c = a ++ (b ++ c) := by
  show String.mk ((a ++ b).data ++ c.data) = String.mk (a.data ++ (b ++ c).data)
  rw [stringAppend_data, stringAppend_data, List.append_assoc]

theorem containsStr_mem_joinComma (f : Violation → String) (l : List Violation) (v : Violation)
    (hv : v ∈ l) : containsStr (joinComma (l.map f)) (f v) = true := by
  induction l with
  | nil => cases hv
  | cons a rest ih =>
    rcases List.mem_cons.mp hv with h | h
    · subst h
      cases rest with
      | nil => exact containsStr_self (f v)
      | cons b rest2 =>
        show containsStr (f v ++ ", " ++ joinComma ((b :: rest2).map f)) (f v) = true
        rw [stringAppend_assoc]
        exact containsStr_self_append (f v) (", " ++ joinComma ((b :: rest2).map f))
    · cases rest with
      | nil => cases h
      | cons b rest2 =>
        have ih2 := ih h
        show containsStr (f a ++ ", " ++ joinComma ((b :: rest2).map f)) (f v) = true
        rw [stringAppend_assoc]
        exact containsStr_append_left (f a) _ _
          (containsStr_append_left ", " _ _ ih2)

theorem mem_scanText_threshold (d : PIIDetector) (text src : String) (v : Violation)
    (hv : v ∈ scanText d text src) :
    effectiveThreshold d.policy.confidence_threshold ≤ v.confidence_score := by
  unfold scanText at hv
  split at hv
  · simp at hv
  · split at hv
    · simp at hv
    · simp only [List.mem_flatten, List.mem_map] at hv
      obtain ⟨l, ⟨p, hp, rfl⟩, hvl⟩ := hv
      have h2 := (List.mem_filter.mp hvl).2
      exact of_decide_eq_true h2

theorem threshold_le_effective (t : ℚ) : t ≤ effectiveThreshold (some t) := by
  have he : effectiveThreshold (some t) = if t = 0 then mkRat 4 5 else t := rfl
  rw [he]
  split_ifs with h
  · subst h; decide
  · exact le_refl t

/-- C4: for every text whose lower-cased form contains any configured
whitelist phrase (compared case-insensitively) as a substring, scanText
returns the empty list, regardless of pattern matches: the whitelist
check precedes all pattern matching. -/
theorem c4_theorem (d : PIIDetector) (text src : String)
    (h : d.policy.whitelistPhrases.any
      (fun phrase => containsStr (lowerString text) (lowerString phrase)) = true) :
    scanText d text src = [] := by
  unfold scanText
  split
  · rfl
  · simp [h]

/-- Witness for C4 at the spec's own example: text "example A1234567"
with whitelist phrase "example"; the passport pattern would match but
the scan returns no violations. -/
theorem c4_witness :
  passportMatchFn "example A1234567" = ["A1234567"] ∧
  scanText whitelistDetector "example A1234567" "request_body" = [] :=
  ⟨by decide, c4_theorem whitelistDetector "example A1234567" "request_body" (by decide)⟩

/-- C6: under monitor mode, applyEnforcement always returns action
allow, modified false, appliedActions ["logged_for_monitoring"], and the
original data unchanged, for every violation set. -/
theorem c6_theorem (d : PIIDetector) (data : JValue) (violations : List Violation)
    (h : getEnforcementMode d = "monitor") :
    applyEnforcement d data violations =
      { action := "allow", modified := false, sanitizedData := data,
        blockReason := none, warnings := [], appliedActions := ["logged_for_monitoring"] } := by
  simp [applyEnforcement, h]

/-- Witness for C6: a monitor-mode detector (the default mode) with a
non-empty violation set. -/
theorem c6_witness :
  applyEnforcement (modeDetector none) bangData [bangViolation, cardViolation] =
    { action := "allow", modified := false, sanitizedData := bangData,
      blockReason := none, warnings := [], appliedActions := ["logged_for_monitoring"] } :=
  c6_theorem (modeDetector none) bangData [bangViolation, cardViolation] rfl

/-- C7: for a financial-category match with no exact examples hit, the
confidence is 0.95 for length at least 15, 0.9 for length in [10, 15),
and the base 0.8 below that. -/
theorem c7_theorem (m : String) (config : PatternConfig)
    (hcat : config.category = "financial")
    (hex : exampleHit config.examples m = false) :
    calculateConfidence m config =
      (if 15 ≤ m.length then mkRat 19 20
       else if 10 ≤ m.length then mkRat 9 10
       else mkRat 4 5) := by
  simp only [calculateConfidence, hcat, hex, if_true, if_false, Bool.false_eq_true]
  split_ifs <;> decide

/-- Witness for C7: the concrete IBAN match "DE89370400440532013000"
(22 characters, hence in the top tier) scores exactly 0.95. -/
theorem c7_witness :
  ("DE89370400440532013000" : String).length = 22 ∧
  calculateConfidence "DE89370400440532013000" ibanConfig = mkRat 19 20 := by
  refine ⟨by decide, ?_⟩
  have h7 := c7_theorem "DE89370400440532013000" ibanConfig rfl rfl
  rw [h7]
  decide

/-- C2 (code bug): under the default policy (threshold 0.8, contact
email pattern, no examples), the candidate email violation for
"guest@hotel.com" scores 0.75, which is below the threshold, so scanText
returns no violation at all — contradicting the expected single email
violation (the engine's own runTests fixture expects the email pattern
to fire on this text). -/
theorem c2_code_bug :
  calculateConfidence "guest@hotel.com" emailConfig = mkRat 3 4 ∧
  effectiveThreshold defaultPolicyDetector.policy.confidence_threshold = mkRat 4 5 ∧
  emailMatchFn "guest@hotel.com" = ["guest@hotel.com"] ∧
  scanText defaultPolicyDetector "guest@hotel.com" "request_body" = [] :=
  ⟨by decide, by decide, by decide, by decide⟩

/-- C1 (counterexample): sweeping the configured threshold from 0 up is
not monotone at 0: with threshold 0.5 the email violation is returned,
while with configured threshold 0 (falsy, replaced by 0.8) it is not,
although 0 is below 0.5. -/
theorem c1_counterexample :
  (0 : ℚ) ≤ mkRat 1 2 ∧
  guestEmailViolation ∈ scanText (emailDetector (some (mkRat 1 2))) "guest@hotel.com" "request_body" ∧
  guestEmailViolation ∉ scanText (emailDetector (some 0)) "guest@hotel.com" "request_body" :=
  ⟨by decide, by decide, by decide⟩

/-- C3 (counterexample): in sanitize mode a violation whose redacted
text equals its detected text (a match with no alphanumeric characters)
yields modified = true while the sanitized data is identical to the
original, so it does not differ at the violation's field path "m". -/
theorem c3_counterexample :
  bangViolation.field_path = some "m" ∧
  (applyEnforcement (modeDetector (some "sanitize")) bangData [bangViolation]).modified = true ∧
  (applyEnforcement (modeDetector (some "sanitize")) bangData [bangViolation]).sanitizedData = bangData := by
  refine ⟨rfl, rfl, ?_⟩
  simp [applyEnforcement, sanitizeData, getEnforcementMode, jsOrString, modeDetector,
    bangViolation, bangData, truthyOptStr, jsOrStringD, replaceInObject, replaceInFields,
    strReplaceAll, strReplaceAllAux]

/-- C10: the effective confidence threshold is never 0 — a configured 0
(like null or absent) is replaced by 0.8, both in scanText's filter and
in getStats — and configuring 0 can strictly shrink the returned
violation set relative to a small positive threshold. -/
theorem c10_theorem :
  (∀ t : Option ℚ, effectiveThreshold t ≠ 0) ∧
  effectiveThreshold (some 0) = mkRat 4 5 ∧
  effectiveThreshold none = mkRat 4 5 ∧
  (∀ d : PIIDetector,
    (getStats d).confidence_threshold = effectiveThreshold d.policy.confidence_threshold) ∧
  guestEmailViolation ∈ scanText (emailDetector (some (mkRat 1 2))) "guest@hotel.com" "request_body" ∧
  scanText (emailDetector (some 0)) "guest@hotel.com" "request_body" = [] := by
  refine ⟨?_, by decide, by decide, fun d => rfl, by decide, by decide⟩
  intro t
  match t with
  | none => decide
  | some x =>
    have he : effectiveThreshold (some x) = if x = 0 then mkRat 4 5 else x := rfl
    rw [he]
    split_ifs with h
    · decide
    · exact h

/-- C1 (amended): the threshold invariant holds as stated — a violation
is returned only if its confidence score is at least the configured
threshold — and the returned set shrinks monotonically under a threshold
sweep restricted to positive thresholds (all else equal); at configured
threshold 0 the falsy-fallback to 0.8 breaks the sweep's left endpoint,
as the counterexample shows. -/
theorem c1_amended :
  (∀ (d : PIIDetector) (text src : String) (v : Violation) (t : ℚ),
      d.policy.confidence_threshold = some t →
      v ∈ scanText d text src → t ≤ v.confidence_score) ∧
  (∀ (d1 d2 : PIIDetector) (t1 t2 : ℚ) (text src : String) (v : Violation),
      d1.policy.enabled = d2.policy.enabled →
      d1.policy.whitelistPhrases = d2.policy.whitelistPhrases →
      d1.policy.redaction = d2.policy.redaction →
      d1.policy.gdpr = d2.policy.gdpr →
      d1.patterns = d2.patterns →
      d1.policy.confidence_threshold = some t1 →
      d2.policy.confidence_threshold = some t2 →
      0 < t1 → t1 ≤ t2 →
      v ∈ scanText d2 text src → v ∈ scanText d1 text src) := by
  constructor
  · intro d text src v t ht hv
    have h1 := mem_scanText_threshold d text src v hv
    rw [ht] at h1
    exact le_trans (threshold_le_effective t) h1
  · intro d1 d2 t1 t2 text src v hen hwl hred hgd hpat ht1 ht2 h0 h12 hv
    obtain ⟨⟨en1, th1, wl1, red1, gd1⟩, pats1⟩ := d1
    obtain ⟨⟨en2, th2, wl2, red2, gd2⟩, pats2⟩ := d2
    simp only at hen hwl hred hgd hpat ht1 ht2
    subst hen hwl hred hgd hpat ht1 ht2
    have e1 : effectiveThreshold (some t1) = t1 := by
      have he : effectiveThreshold (some t1) = if t1 = 0 then mkRat 4 5 else t1 := rfl
      rw [he, if_neg (ne_of_gt h0)]
    have e2 : effectiveThreshold (some t2) = t2 := by
      have he : effectiveThreshold (some t2) = if t2 = 0 then mkRat 4 5 else t2 := rfl
      rw [he, if_neg (ne_of_gt (lt_of_lt_of_le h0 h12))]
    unfold scanText at hv ⊢
    dsimp only [isEnabled] at hv ⊢
    split at hv
    · simp at hv
    · split at hv
      · simp at hv
      · rename_i hcond hwhite
        rw [if_neg hcond, if_neg hwhite]
        simp only [List.mem_flatten, List.mem_map] at hv ⊢
        obtain ⟨l, ⟨p, hp, hlp⟩, hvl⟩ := hv
        subst hlp
        refine ⟨_, ⟨p, hp, rfl⟩, ?_⟩
        rw [List.mem_filter] at hvl ⊢
        refine ⟨hvl.1, ?_⟩
        have hscore := of_decide_eq_true hvl.2
        rw [e2] at hscore
        have : effectiveThreshold (some t1) ≤ v.confidence_score := by
          rw [e1]; exact le_trans h12 hscore
        exact decide_eq_true this

/-- Witness for C1 (amended): with threshold 0.5 the concrete email
violation is returned and its score 0.75 is at least 0.5; lowering to
the positive threshold 0.25 still returns it. -/
theorem c1_witness :
  mkRat 1 2 ≤ guestEmailViolation.confidence_score ∧
  guestEmailViolation ∈ scanText (emailDetector (some (mkRat 1 4))) "guest@hotel.com" "request_body" := by
  constructor
  · exact c1_amended.1 (emailDetector (some (mkRat 1 2))) "guest@hotel.com" "request_body"
      guestEmailViolation (mkRat 1 2) rfl (by decide)
  · exact c1_amended.2 (emailDetector (some (mkRat 1 4))) (emailDetector (some (mkRat 1 2)))
      (mkRat 1 4) (mkRat 1 2) "guest@hotel.com" "request_body" guestEmailViolation
      rfl rfl rfl rfl rfl rfl rfl (by decide) (by decide) (by decide)

/-- C5: block mode with a non-empty violation set always blocks, the
block reason names every violation's type and risk level, and blocking
is monotone under supersets of the violation set (same data and policy). -/
theorem c5_theorem (d : PIIDetector) (data : JValue) (violations : List Violation)
    (hmode : getEnforcementMode d = "block") (hne : violations ≠ []) :
    (applyEnforcement d data violations).action = "block" ∧
    (∃ reason, (applyEnforcement d data violations).blockReason = some reason ∧
      ∀ v ∈ violations, containsStr reason (v.type ++ " (" ++ v.risk_level ++ ")") = true) ∧
    (∀ w : List Violation, (∀ v ∈ violations, v ∈ w) →
      (applyEnforcement d data w).action = "block") := by
  have hrun : ∀ (vs : List Violation), vs ≠ [] →
      applyEnforcement d data vs =
        { action := "block"
          modified := false
          sanitizedData := data
          blockReason := some ("Blocked by " ++ "block" ++ " mode - PII detected: " ++
            joinComma (vs.map (fun v => v.type ++ " (" ++ v.risk_level ++ ")")))
          warnings := []
          appliedActions := ["blocked_by_" ++ "block" ++ "_mode"] } := by
    intro vs hvs
    simp [applyEnforcement, hmode, hvs]
  obtain ⟨x, hx⟩ := List.exists_mem_of_ne_nil violations hne
  refine ⟨by rw [hrun violations hne], ?_, ?_⟩
  · refine ⟨"Blocked by " ++ "block" ++ " mode - PII detected: " ++
      joinComma (violations.map (fun v => v.type ++ " (" ++ v.risk_level ++ ")")), ?_, ?_⟩
    · rw [hrun violations hne]
    · intro v hv
      exact containsStr_append_left _ _ _
        (containsStr_mem_joinComma (fun v => v.type ++ " (" ++ v.risk_level ++ ")") violations v hv)
  · intro w hw
    have hwne : w ≠ [] := List.ne_nil_of_mem (hw x hx)
    rw [hrun w hwne]

/-- Witness for C5: a concrete block-mode detector with one high-risk
violation blocks, and still blocks for a chosen superset. -/
theorem c5_witness :
  (applyEnforcement (modeDetector (some "block")) bangData [cardViolation]).action = "block" ∧
  (applyEnforcement (modeDetector (some "block")) bangData [cardViolation, bangViolation]).action = "block" := by
  have h := c5_theorem (modeDetector (some "block")) bangData [cardViolation] rfl (by decide)
  exact ⟨h.1, h.2.2 [cardViolation, bangViolation] (by decide)⟩

theorem applyActionForRisk_inv (d : PIIDetector) (risk a : String) (data : JValue)
    (bucket V : List Violation) (r : EnforcementResult)
    (hb : ∀ v ∈ bucket, v ∈ V) (hr : EnfInv d data V r) :
    EnfInv d data V (applyActionForRisk d risk a data bucket r) := by
  unfold applyActionForRisk
  split_ifs with h1 h2 h3 h4
  · exact ⟨fun _ => by simp, fun hm => hr.2 hm⟩
  · exact ⟨fun ha => hr.1 ha, fun _ => ⟨bucket, hb, rfl⟩⟩
  · exact ⟨fun ha => hr.1 ha, fun hm => hr.2 hm⟩
  · exact ⟨fun ha => hr.1 ha, fun hm => hr.2 hm⟩
  · exact ⟨fun ha => hr.1 ha, fun hm => hr.2 hm⟩

theorem enfInv_if (d : PIIDetector) (data : JValue) (V : List Violation)
    (c : Prop) [Decidable c] (risk a : String) (bucket : List Violation)
    (r : EnforcementResult)
    (hb : ∀ v ∈ bucket, v ∈ V) (hr : EnfInv d data V r) :
    EnfInv d data V (if c then applyActionForRisk d risk a data bucket r else r) := by
  split_ifs with hc
  · exact applyActionForRisk_inv d risk a data bucket V r hb hr
  · exact hr

theorem enfInv_ite (d : PIIDetector) (data : JValue) (V : List Violation)
    (c : Prop) [Decidable c] (x y : EnforcementResult)
    (hx : EnfInv d data V x) (hy : EnfInv d data V y) :
    EnfInv d data V (if c then x else y) := by
  split_ifs
  · exact hx
  · exact hy

/-- C3 (amended): every EnforcementResult of applyEnforcement satisfies:
a block decision carries a non-null blockReason, and modified = true
means the sanitized data is the global detected-to-redacted substitution
(sanitizeData) of some sub-list of the violations over the original
data — which, as the counterexample shows, need not differ from the
original at a violation's field path. -/
theorem c3_amended (d : PIIDetector) (data : JValue) (violations : List Violation) :
    ((applyEnforcement d data violations).action = "block" →
      (applyEnforcement d data violations).blockReason ≠ none) ∧
    ((applyEnforcement d data violations).modified = true →
      ∃ S : List Violation, (∀ v ∈ S, v ∈ violations) ∧
        (applyEnforcement d data violations).sanitizedData = sanitizeData d data S) := by
  show EnfInv d data violations (applyEnforcement d data violations)
  simp only [applyEnforcement]
  refine enfInv_ite d data violations _ _ _
    ⟨fun ha => by simp at ha, fun hm => by simp at hm⟩
    (enfInv_ite d data violations _ _ _
      ⟨fun _ => by simp, fun hm => by simp at hm⟩
      (enfInv_ite d data violations _ _ _
        ⟨fun ha => by simp at ha, fun _ => ⟨violations, fun v hv => hv, rfl⟩⟩
        (enfInv_ite d data violations _ _ _
          ⟨fun ha => by simp at ha, fun hm => by simp at hm⟩
          (enfInv_ite d data violations _ _ _
            ?_
            ⟨fun ha => by simp at ha, fun hm => by simp at hm⟩))))
  exact enfInv_if d data violations _ _ _ _ _
    (fun v hv => (List.mem_filter.mp hv).1)
    (enfInv_if d data violations _ _ _ _ _
      (fun v hv => (List.mem_filter.mp hv).1)
      (enfInv_if d data violations _ _ _ _ _
        (fun v hv => (List.mem_filter.mp hv).1)
        ⟨fun ha => by simp at ha, fun hm => by simp at hm⟩))

/-- Witness for C3 (amended): both implications discharged at concrete
inputs — a block-mode result has a reason, and the sanitize-mode result
equals sanitizeData of a sub-list of the violations. -/
theorem c3_witness :
  (applyEnforcement (modeDetector (some "block")) bangData [bangViolation]).blockReason ≠ none ∧
  (∃ S : List Violation, (∀ v ∈ S, v ∈ [bangViolation]) ∧
    (applyEnforcement (modeDetector (some "sanitize")) bangData [bangViolation]).sanitizedData =
      sanitizeData (modeDetector (some "sanitize")) bangData S) := by
  constructor
  · exact (c3_amended (modeDetector (some "block")) bangData [bangViolation]).1 rfl
  · exact (c3_amended (modeDetector (some "sanitize")) bangData [bangViolation]).2 rfl

theorem applyActionForRisk_block (d : PIIDetector) (risk : String) (data : JValue)
    (bucket : List Violation) (r : EnforcementResult) :
    applyActionForRisk d risk "block" data bucket r =
      { r with
        action := "block"
        blockReason := some ("Blocked due to " ++ risk ++ " risk PII: " ++
          joinComma (bucket.map (fun v => v.type)))
        appliedActions := r.appliedActions ++ ["blocked_" ++ risk ++ "_risk"] } := by
  simp [applyActionForRisk]

/-- C8: in the per-risk fallback branch (unrecognized mode, non-empty
violations), the high bucket is processed first and a high action that
resolves to block short-circuits: the result is exactly the high-bucket
block record, the medium and low buckets untouched; and an unrecognized
per-risk action string only appends the default tag, never failing. -/
theorem c8_theorem :
  (∀ (d : PIIDetector) (data : JValue) (violations : List Violation),
      getEnforcementMode d ≠ "monitor" → getEnforcementMode d ≠ "block" →
      getEnforcementMode d ≠ "sanitize" → getEnforcementMode d ≠ "warn" →
      violations ≠ [] →
      violations.filter (fun v => v.risk_level = "high") ≠ [] →
      jsOrString d.policy.gdpr.actions.on_high "block" = "block" →
      applyEnforcement d data violations =
        { action := "block"
          modified := false
          sanitizedData := data
          blockReason := some ("Blocked due to " ++ "high" ++ " risk PII: " ++
            joinComma ((violations.filter (fun v => v.risk_level = "high")).map (fun v => v.type)))
          warnings := []
          appliedActions := ["blocked_" ++ "high" ++ "_risk"] }) ∧
  (∀ (d : PIIDetector) (riskLevel action : String) (data : JValue)
      (violations : List Violation) (result : EnforcementResult),
      action ≠ "block" → action ≠ "redact" → action ≠ "sanitize" →
      action ≠ "warn" → action ≠ "allow_with_note" →
      applyActionForRisk d riskLevel action data violations result =
        { result with
          appliedActions := result.appliedActions ++ ["default_action_" ++ riskLevel ++ "_risk"] }) := by
  constructor
  · intro d data violations hmon hblk hsan hwarn hne hhigh hres
    simp only [applyEnforcement]
    rw [if_neg hmon, if_neg (fun hc => hblk hc.1), if_neg (fun hc => hsan hc.1),
      if_neg (fun hc => hwarn hc.1), if_pos hne, if_pos hhigh, hres,
      applyActionForRisk_block]
    split_ifs with hA hB hC
    all_goals first
      | rfl
      | exact absurd rfl hA.2
      | exact absurd rfl hB.2
      | exact absurd rfl hC.2
  · intro d riskLevel action data violations result h1 h2 h3 h4 h5
    simp [applyActionForRisk, h1, h2, h3, h4, h5]

/-- Witness for C8: a detector with unrecognized mode "custom" and one
high-risk violation blocks via the high bucket alone, and an unknown
per-risk action "escalate" only appends its default tag. -/
theorem c8_witness :
  applyEnforcement (modeDetector (some "custom")) bangData [cardViolation] =
    { action := "block", modified := false, sanitizedData := bangData,
      blockReason := some "Blocked due to high risk PII: credit_card",
      warnings := [], appliedActions := ["blocked_high_risk"] } ∧
  applyActionForRisk (modeDetector (some "custom")) "medium" "escalate" JValue.null []
      { action := "allow", modified := false, sanitizedData := JValue.null,
        blockReason := none, warnings := [], appliedActions := [] } =
    { action := "allow", modified := false, sanitizedData := JValue.null,
      blockReason := none, warnings := [], appliedActions := ["default_action_medium_risk"] } := by
  constructor
  · exact c8_theorem.1 (modeDetector (some "custom")) bangData [cardViolation]
      (by decide) (by decide) (by decide) (by decide) (by decide) (by decide) rfl
  · exact c8_theorem.2 (modeDetector (some "custom")) "medium" "escalate" JValue.null []
      { action := "allow", modified := false, sanitizedData := JValue.null,
        blockReason := none, warnings := [], appliedActions := [] }
      (by decide) (by decide) (by decide) (by decide) (by decide)

theorem replaceAlnum_fixed (repl : String) (l : List Char)
    (h : ∀ c ∈ l, String.mk [c] = repl ∨ jsAlnum c = false) :
    (l.map (fun c => if jsAlnum c then repl.data else [c])).flatten = l := by
  induction l with
  | nil => rfl
  | cons c t ih =>
    have ht := ih (fun x hx => h x (List.mem_cons_of_mem c hx))
    simp only [List.map_cons, List.flatten_cons]
    rcases h c (List.mem_cons_self c t) with hc | hc
    · by_cases ha : jsAlnum c
      · have hdata : repl.data = [c] := by rw [← hc]
        rw [if_pos ha, hdata]
        rw [hdata] at ht
        simp [ht]
      · rw [if_neg ha]
        simp [ht]
    · rw [if_neg (by simp [hc])]
      simp [ht]

/-- C9: with preserve_format redaction, a string consisting solely of
the replacement character and non-alphanumeric characters (the output of
a prior redaction) is a fixed point: redacting it again returns the
identical string. -/
theorem c9_theorem (d : PIIDetector) (s : String)
    (hp : (effectiveRedaction d).preserve_format = true)
    (hchars : ∀ c ∈ s.data, String.mk [c] = (effectiveRedaction d).replacement_char ∨
      jsAlnum c = false) :
    redactText d s = s := by
  unfold redactText
  rw [if_pos hp]
  unfold replaceAlnum
  rw [replaceAlnum_fixed (effectiveRedaction d).replacement_char s.data hchars]

/-- Witness for C9: re-redacting the already-redacted email
"*****@*****.***" under the default redaction settings returns it
unchanged. -/
theorem c9_witness : redactText defaultPolicyDetector "*****@*****.***" = "*****@*****.***" :=
  c9_theorem defaultPolicyDetector "*****@*****.***" rfl (by decide)
